import Mathlib

/-!
# Verification of the MyMediaTrek backend (src/app.py)

Shallow embedding of the Flask + PostgreSQL media-tracking backend.
The relational store becomes an explicit `Store` value threaded through each
handler; every handler is a pure function from its request inputs (and the
points where a store call may raise) to an HTTP result paired with the store
it leaves behind.  SQL queries of `app.py` become list operations over the
store, translated statement by statement.
-/

namespace MyMediaTrek

/-- A row of the `media_items` table.  Columns as used by `app.py`:
`media_id` (generated), `user_id` (owner), `title`, `media_type`, `status`,
optional `current_progress`, `rating`, `comment`, and the store-assigned
`added_date`. -/
structure MediaItem where
  media_id : Nat
  user_id : Nat
  title : String
  media_type : String
  status : String
  current_progress : Option Int
  rating : Option Int
  comment : Option String
  added_date : Nat
deriving DecidableEq, Repr

/-- A row of the `users` table: `user_id` (generated), unique `username`,
`password_hash`. -/
structure User where
  user_id : Nat
  username : String
  password_hash : String
deriving DecidableEq, Repr

/-- The relational store.  `next_user_id` / `next_media_id` model the
sequences behind `RETURNING user_id` / `RETURNING media_id`; `now` models the
clock from which the store assigns `added_date` on insert. -/
structure Store where
  users : List User
  media : List MediaItem
  next_user_id : Nat
  next_media_id : Nat
  now : Nat
deriving DecidableEq, Repr

/-- Configuration: the two secrets of `app.py` (`JWT_SECRET_KEY`,
`ADMIN_MASTER_KEY`). -/
structure Config where
  jwt_secret_key : String
  admin_master_key : String
deriving DecidableEq, Repr

/-- Modelled from the spec: the token-signing collaborator
(`flask_jwt_extended`) issues a signed claims token carrying the identity as
subject, verifiable with the signing key.  We model a signed token as the
pair of the signing key and the subject. -/
structure Token where
  key : String
  sub : Nat
deriving DecidableEq, Repr

/-- `create_access_token(identity=uid)` under signing key `key`. -/
def create_access_token (key : String) (identity : Nat) : Token :=
  ⟨key, identity⟩

/-- Modelled from the spec: token verification by the Access Guard
(`@jwt_required()` + `get_jwt_identity()`): a token verifies iff it was
signed with the configured key, and then exposes its subject. -/
def verify_jwt (cfg : Config) (auth : Option Token) : Option Nat :=
  match auth with
  | none => none
  | some t => if t.key = cfg.jwt_secret_key then some t.sub else none

/-- Modelled from the spec: the password-hashing collaborator (werkzeug), a
one-way hash with a verify operation.  Modelled as a tagged injection. -/
def generate_password_hash (password : String) : String :=
  "pbkdf2-sha256$" ++ password

/-- Modelled from the spec: `check_password_hash(h, p)` succeeds iff `h` is
the hash of `p`. -/
def check_password_hash (hash password : String) : Bool :=
  hash = generate_password_hash password

/-- The JSON body of a media create/update request.  `none` in a required
field models the key being absent from the JSON object (so that `data[k]`
raises `KeyError`); the optional fields are read with `data.get(k)`. -/
structure MediaBody where
  title : Option String
  media_type : Option String
  status : Option String
  progress : Option Int
  rating : Option Int
  comment : Option String
deriving DecidableEq, Repr

/-- `str(e)` for a Python `KeyError` on key `k` (the message is the repr of
the missing key). -/
def keyErrorStr (k : String) : String :=
  "\x27" ++ k ++ "\x27"

/-- Response bodies produced by the handlers of `app.py`, one constructor
per `jsonify` shape. -/
inductive Resp where
  /-- `jsonify({"msg": text})` -/
  | msg (text : String)
  /-- `jsonify({"access_token": token, "username": username})` -/
  | loginOk (access_token : Token) (username : String)
  /-- `jsonify({"status": "success", "data": [...]})` -/
  | listOk (data : List MediaItem)
  /-- `jsonify({"status": s, "message": m})` -/
  | statusMsg (status : String) (message : String)
  /-- `jsonify({"status": s, "message": m, "media_id": id})` -/
  | createOk (status : String) (message : String) (media_id : Nat)
deriving DecidableEq, Repr

/-- The `data` list of a `listOk` response (empty for any other shape). -/
def Resp.items : Resp → List MediaItem
  | .listOk l => l
  | _ => []

/-- The result of one handled request: HTTP status code, response body, and
the store state left behind (committed state after the request). -/
structure HRes where
  code : Nat
  resp : Resp
  store : Store
deriving DecidableEq, Repr

/-! ## SQL ILIKE pattern matching

`media_api` GET builds the pattern `%q%` and runs `title ILIKE %s`.
`likeMatch pat s` is SQL `LIKE` pattern matching, case-insensitive
(`ILIKE`): `%` matches any sequence, `_` any single character, `\` escapes
the following character; ordinary characters match up to lower-casing.
The recursion is lexicographic in (pattern, string); it is implemented on
an explicit fuel (any fuel above `pattern.length + string.length` computes
the match) so that the function reduces definitionally. -/
def likeMatchAux : Nat → List Char → List Char → Bool
  | 0, _, _ => false
  | _ + 1, [], s => s.isEmpty
  | fuel + 1, p :: ps, [] =>
    if p = '%' then likeMatchAux fuel ps []
    else false
  | fuel + 1, p :: ps, c :: s =>
    if p = '%' then
      likeMatchAux fuel ps (c :: s) || likeMatchAux fuel (p :: ps) s
    else if p = '\\' then
      (match ps with
       | [] => false
       | q :: ps2 => (q.toLower = c.toLower) && likeMatchAux fuel ps2 s)
    else if p = '_' then
      likeMatchAux fuel ps s
    else
      (p.toLower = c.toLower) && likeMatchAux fuel ps s

/-- SQL `LIKE`/`ILIKE` pattern matching (see `likeMatchAux`). -/
def likeMatch (p s : List Char) : Bool :=
  likeMatchAux (p.length + s.length + 1) p s

/-- `s ILIKE pat` on strings. -/
def ilike (s pat : String) : Bool :=
  likeMatch pat.data s.data

/-! ## Store-level operations (the SQL statements of app.py) -/

/-- Predicate of `WHERE media_id = %s AND user_id = %s`. -/
def itemKey (mid uid : Nat) (m : MediaItem) : Bool :=
  m.media_id == mid && m.user_id == uid

/-- Modelled from the spec: `INSERT INTO users ... RETURNING user_id`
against a store whose schema enforces `username` uniqueness — creation
fails (raising `IntegrityError`, here `Except.error`) rather than
overwriting on collision. -/
def insertUser (st : Store) (username hash : String) : Except Unit (Nat × Store) :=
  if st.users.any (fun x => x.username == username) then
    .error ()
  else
    .ok (st.next_user_id,
      { st with
        users := st.users ++ [⟨st.next_user_id, username, hash⟩],
        next_user_id := st.next_user_id + 1 })

/-- `SELECT * FROM users WHERE username = %s` (`fetchone`).  A `none`
username models the key being absent from the body (`data.get` returns
`None`, and `username = NULL` selects no row). -/
def userLookup (st : Store) (username : Option String) : Option User :=
  match username with
  | none => none
  | some u => st.users.find? (fun x => x.username == u)

/-- The result set of the GET query of `media_api`:
`SELECT * FROM media_items WHERE user_id = %s [AND title ILIKE %q%]
ORDER BY added_date DESC`.  The `ILIKE` clause is only added when `q` is
non-empty (`if q:`). -/
def listMedia (st : Store) (uid : Nat) (q : String) : List MediaItem :=
  let owned := st.media.filter (fun m => m.user_id == uid)
  let filtered := if q = "" then owned
                  else owned.filter (fun m => ilike m.title ("%" ++ q ++ "%"))
  filtered.insertionSort (fun a b => b.added_date ≤ a.added_date)

instance : IsTotal MediaItem (fun a b => b.added_date ≤ a.added_date) :=
  ⟨fun a b => Nat.le_total b.added_date a.added_date⟩

instance : IsTrans MediaItem (fun a b => b.added_date ≤ a.added_date) :=
  ⟨fun _ _ _ hab hbc => Nat.le_trans hbc hab⟩

/-! ## Handlers

Each handler takes the store it starts from, the request inputs, and fault
injection points: `connFail` models `get_db_connection()` returning `None`,
and each `f1`/`f2 : Option String` models the corresponding
`cursor.execute` raising an exception with message `str(e)`.  On such an
exception the handler's `except` branch rolls the transaction back, so the
committed store is the one the handler started from. -/

/-- `POST /api/admin/register` (`admin_register` in app.py).  The admin-key
check comes first; then presence/non-emptiness of `username` and
`password`; then the insert, with `IntegrityError` mapped to 409. -/
def admin_register (cfg : Config) (st : Store) (admin_key : Option String)
    (username password : Option String) (connFail : Bool) (f1 : Option String) :
    HRes :=
  if admin_key ≠ some cfg.admin_master_key then
    ⟨403, .msg "Forbidden: 密鑰錯誤，你沒有權限建立帳號", st⟩
  else
    match username, password with
    | some u, some p =>
      if u = "" || p = "" then ⟨400, .msg "帳號或密碼不能為空", st⟩
      else if connFail then ⟨500, .msg "DB Error", st⟩
      else
        match f1 with
        | some e => ⟨500, .msg e, st⟩
        | none =>
          match insertUser st u (generate_password_hash p) with
          | .error () => ⟨409, .msg "帳號已存在", st⟩
          | .ok (newId, st2) =>
            ⟨201, .msg ("使用者 " ++ u ++ " 建立成功 (ID: " ++ toString newId ++ ")"), st2⟩
    | _, _ => ⟨400, .msg "帳號或密碼不能為空", st⟩

/-- `POST /api/login` (`login` in app.py). -/
def login (cfg : Config) (st : Store) (username : Option String)
    (password : String) (connFail : Bool) : HRes :=
  if connFail then ⟨500, .msg "DB Error", st⟩
  else
    match userLookup st username with
    | some user =>
      if check_password_hash user.password_hash password then
        ⟨200, .loginOk (create_access_token cfg.jwt_secret_key user.user_id)
              user.username, st⟩
      else ⟨401, .msg "帳號或密碼錯誤", st⟩
    | none => ⟨401, .msg "帳號或密碼錯誤", st⟩

/-- `GET /api/media` (the GET branch of `media_api`), after the Access
Guard has produced `uid`.  `q` is `request.args.get('q', '')`. -/
def media_get (st : Store) (uid : Nat) (q : String) (connFail : Bool)
    (f1 : Option String) : HRes :=
  if connFail then ⟨500, .msg "DB Error", st⟩
  else
    match f1 with
    | some e => ⟨500, .statusMsg "error" e, st⟩
    | none => ⟨200, .listOk (listMedia st uid q), st⟩

/-- `POST /api/media` (the POST branch of `media_api`), after the Access
Guard.  Evaluation order follows the source: `data['title']` is read while
building the arguments of the duplicate check (`KeyError` if absent), then
the check query runs (`f1`), then `data['media_type']` and `data['status']`
are read for the insert tuple, then the insert runs (`f2`), then commit. -/
def media_post (st : Store) (uid : Nat) (body : MediaBody) (connFail : Bool)
    (f1 f2 : Option String) : HRes :=
  if connFail then ⟨500, .msg "DB Error", st⟩
  else
    match body.title with
    | none => ⟨500, .statusMsg "error" (keyErrorStr "title"), st⟩
    | some title =>
      match f1 with
      | some e => ⟨500, .statusMsg "error" e, st⟩
      | none =>
        if st.media.any (fun m => m.title == title && m.user_id == uid) then
          ⟨409, .statusMsg "error" ("《" ++ title ++ "》已經在你的清單裡囉！"), st⟩
        else
          match body.media_type with
          | none => ⟨500, .statusMsg "error" (keyErrorStr "media_type"), st⟩
          | some mt =>
            match body.status with
            | none => ⟨500, .statusMsg "error" (keyErrorStr "status"), st⟩
            | some sv =>
              match f2 with
              | some e => ⟨500, .statusMsg "error" e, st⟩
              | none =>
                ⟨201, .createOk "success" "新增成功" st.next_media_id,
                 { st with
                   media := st.media ++
                     [⟨st.next_media_id, uid, title, mt, sv,
                       body.progress, body.rating, body.comment, st.now⟩],
                   next_media_id := st.next_media_id + 1 }⟩

/-- `DELETE /api/media/<media_id>` (the DELETE branch of `item_api`), after
the Access Guard.  `DELETE ... WHERE media_id = %s AND user_id = %s`,
commit, then the `rowcount` check. -/
def item_delete (st : Store) (uid mid : Nat) (connFail : Bool)
    (f1 : Option String) : HRes :=
  if connFail then ⟨500, .msg "DB Error", st⟩
  else
    match f1 with
    | some e => ⟨500, .statusMsg "error" e, st⟩
    | none =>
      let rowcount := st.media.countP (fun m => itemKey mid uid m)
      let st2 := { st with media := st.media.filter (fun m => !(itemKey mid uid m)) }
      if rowcount = 0 then
        ⟨404, .statusMsg "error" "刪除失敗 (找不到或無權限)", st2⟩
      else
        ⟨200, .statusMsg "success" "刪除成功", st2⟩

/-- The row an UPDATE writes: `SET title, media_type, status,
current_progress, rating, comment` — `media_id`, `user_id` and `added_date`
are untouched. -/
def applyUpdate (body : MediaBody) (title mt sv : String) (m : MediaItem) :
    MediaItem :=
  { m with
    title := title, media_type := mt, status := sv,
    current_progress := body.progress, rating := body.rating,
    comment := body.comment }

/-- `PUT /api/media/<media_id>` (the PUT branch of `item_api`), after the
Access Guard.  The fields are read in tuple order (`title`, `media_type`,
`status`: first absent one raises `KeyError`), then the UPDATE runs
(`f1`), commit, then the `rowcount` check. -/
def item_put (st : Store) (uid mid : Nat) (body : MediaBody) (connFail : Bool)
    (f1 : Option String) : HRes :=
  if connFail then ⟨500, .msg "DB Error", st⟩
  else
    match body.title, body.media_type, body.status with
    | none, _, _ => ⟨500, .statusMsg "error" (keyErrorStr "title"), st⟩
    | some _, none, _ => ⟨500, .statusMsg "error" (keyErrorStr "media_type"), st⟩
    | some _, some _, none => ⟨500, .statusMsg "error" (keyErrorStr "status"), st⟩
    | some title, some mt, some sv =>
      match f1 with
      | some e => ⟨500, .statusMsg "error" e, st⟩
      | none =>
        let rowcount := st.media.countP (fun m => itemKey mid uid m)
        let st2 := { st with
          media := st.media.map
            (fun m => if itemKey mid uid m then applyUpdate body title mt sv m else m) }
        if rowcount = 0 then
          ⟨404, .statusMsg "error" "更新失敗 (找不到或無權限)", st2⟩
        else
          ⟨200, .statusMsg "success" "更新成功", st2⟩

/-! ## Spec-side definitions

These definitions follow the specification's words (substring search,
descending order) and are compared against the source-derived `ilike` /
`listMedia` in the theorems below. -/

/-- `infixCheck p l` decides whether `p` occurs as a contiguous sublist of
`l`. -/
def infixCheck (p : List Char) (l : List Char) : Bool :=
  p.isPrefixOf l ||
    (match l with
     | [] => false
     | _ :: t => infixCheck p t)

/-- Spec-side: `q` occurs in `s` as a case-insensitive substring. -/
def containsCI (s q : String) : Bool :=
  infixCheck (q.data.map Char.toLower) (s.data.map Char.toLower)

/-- `q` contains none of the SQL LIKE metacharacters (`%`, `_`, `\`). -/
def cleanQuery (q : String) : Bool :=
  q.data.all (fun c => !(c == '%' || c == '_' || c == '\\'))

/-- Spec-side: the list is ordered by `added_date` descending. -/
def sortedByDateDesc : List MediaItem → Bool
  | [] => true
  | [_] => true
  | a :: b :: t => decide (b.added_date ≤ a.added_date) && sortedByDateDesc (b :: t)

/-! ## Protected routes: Access Guard in front of the media handlers -/

/-- `GET /api/media` as routed: `@jwt_required()` first. -/
def media_api_get (cfg : Config) (st : Store) (auth : Option Token) (q : String)
    (connFail : Bool) (f1 : Option String) : HRes :=
  match verify_jwt cfg auth with
  | none => ⟨401, .msg "Unauthorized", st⟩
  | some uid => media_get st uid q connFail f1

/-- `POST /api/media` as routed. -/
def media_api_post (cfg : Config) (st : Store) (auth : Option Token)
    (body : MediaBody) (connFail : Bool) (f1 f2 : Option String) : HRes :=
  match verify_jwt cfg auth with
  | none => ⟨401, .msg "Unauthorized", st⟩
  | some uid => media_post st uid body connFail f1 f2

/-- `PUT /api/media/<media_id>` as routed. -/
def item_api_put (cfg : Config) (st : Store) (auth : Option Token) (mid : Nat)
    (body : MediaBody) (connFail : Bool) (f1 : Option String) : HRes :=
  match verify_jwt cfg auth with
  | none => ⟨401, .msg "Unauthorized", st⟩
  | some uid => item_put st uid mid body connFail f1

/-- `DELETE /api/media/<media_id>` as routed. -/
def item_api_delete (cfg : Config) (st : Store) (auth : Option Token)
    (mid : Nat) (connFail : Bool) (f1 : Option String) : HRes :=
  match verify_jwt cfg auth with
  | none => ⟨401, .msg "Unauthorized", st⟩
  | some uid => item_delete st uid mid connFail f1

/-! ## Concrete fixtures (used by witnesses and counterexamples) -/

def cfgEx : Config := ⟨"jwt-secret", "admin-key"⟩

def userAlice : User := ⟨1, "alice", generate_password_hash "pw1"⟩

def userBob : User := ⟨2, "bob", generate_password_hash "pw2"⟩

def itemDune : MediaItem :=
  ⟨10, 1, "Dune", "book", "reading", none, some 5, none, 50⟩

def itemBlade : MediaItem :=
  ⟨11, 1, "Blade Runner", "movie", "done", some 1, none, some "good", 60⟩

def itemBobDune : MediaItem :=
  ⟨12, 2, "Dune", "movie", "plan", none, none, none, 55⟩

def stEx : Store :=
  ⟨[userAlice, userBob], [itemDune, itemBlade, itemBobDune], 3, 20, 100⟩

def bodyEx : MediaBody :=
  ⟨some "Arrival", some "movie", some "plan", none, none, none⟩

def bodyNoType : MediaBody :=
  ⟨some "Dune", none, some "reading", none, none, none⟩

/-! ## Claims -/

/-- C6: any request to `POST /api/admin/register` whose `X-Admin-Key`
header (possibly absent) differs from the configured administrator key is
answered with 403 Forbidden, before any other validation: the response is
the same for every payload (missing, empty or well-formed fields) and for
every store/connection condition, and the store is returned unchanged (no
user created). -/
theorem admin_register_forbidden_gate (cfg : Config) (st : Store)
    (key : Option String) (username password : Option String) (connFail : Bool)
    (f1 : Option String) (hk : key ≠ some cfg.admin_master_key) :
    admin_register cfg st key username password connFail f1 =
      ⟨403, .msg "Forbidden: 密鑰錯誤，你沒有權限建立帳號", st⟩ := by
  unfold admin_register
  rw [if_pos hk]

/-- Witness for C6: a missing key and a wrong key, each with an invalid or
valid payload, all get the same 403 and leave the example store unchanged. -/
theorem admin_register_forbidden_gate_witness :
    admin_register cfgEx stEx none none none true (some "boom") =
      ⟨403, .msg "Forbidden: 密鑰錯誤，你沒有權限建立帳號", stEx⟩ ∧
    admin_register cfgEx stEx (some "wrong") (some "carol") (some "pw3") false none =
      ⟨403, .msg "Forbidden: 密鑰錯誤，你沒有權限建立帳號", stEx⟩ :=
  ⟨admin_register_forbidden_gate cfgEx stEx none none none true (some "boom")
      (by decide),
   admin_register_forbidden_gate cfgEx stEx (some "wrong") (some "carol")
      (some "pw3") false none (by decide)⟩

/-- C5: login answers with one single generic 401 response — identical
whether the username is absent from the store or the password fails to
verify — and on success answers 200 with a token signed with the configured
key whose subject is the user's `user_id`, together with the username; the
store is never modified. -/
theorem login_contract (cfg : Config) (st : Store) (username : Option String)
    (password : String) :
    (userLookup st username = none →
      login cfg st username password false = ⟨401, .msg "帳號或密碼錯誤", st⟩) ∧
    (∀ u, userLookup st username = some u →
      check_password_hash u.password_hash password = false →
      login cfg st username password false = ⟨401, .msg "帳號或密碼錯誤", st⟩) ∧
    (∀ u, userLookup st username = some u →
      check_password_hash u.password_hash password = true →
      login cfg st username password false =
        ⟨200, .loginOk (create_access_token cfg.jwt_secret_key u.user_id)
          u.username, st⟩ ∧
      (create_access_token cfg.jwt_secret_key u.user_id).sub = u.user_id) := by
  refine ⟨fun hn => ?_, fun u hu hc => ?_, fun u hu hc => ⟨?_, rfl⟩⟩
  · simp [login, hn]
  · simp [login, hu, hc]
  · simp [login, hu, hc]

/-- Witness for C5: on the example store, an unknown username and a wrong
password produce the identical 401 response, and the valid credentials
produce the 200 response with the token for `user_id` 1. -/
theorem login_contract_witness :
    login cfgEx stEx (some "nobody") "pw1" false =
      ⟨401, .msg "帳號或密碼錯誤", stEx⟩ ∧
    login cfgEx stEx (some "alice") "wrong" false =
      ⟨401, .msg "帳號或密碼錯誤", stEx⟩ ∧
    login cfgEx stEx (some "alice") "pw1" false =
      ⟨200, .loginOk (create_access_token cfgEx.jwt_secret_key userAlice.user_id)
        userAlice.username, stEx⟩ :=
  ⟨(login_contract cfgEx stEx (some "nobody") "pw1").1 (by decide),
   (login_contract cfgEx stEx (some "alice") "wrong").2.1 userAlice (by decide)
      (by decide),
   ((login_contract cfgEx stEx (some "alice") "pw1").2.2 userAlice (by decide)
      (by decide)).1⟩

/-- C7: with the correct admin key and non-empty credentials, registering
a fresh username succeeds with 201 and appends exactly one user record;
registering the same username again (any non-empty password) fails with
409 Conflict at the store level and returns the store unchanged — the
existing record is not overwritten. -/
theorem register_twice_conflict (cfg : Config) (st : Store) (u p p2 : String)
    (hu : u ≠ "") (hp : p ≠ "") (hp2 : p2 ≠ "")
    (hfresh : st.users.any (fun x => x.username == u) = false) :
    admin_register cfg st (some cfg.admin_master_key) (some u) (some p) false none =
      ⟨201, .msg ("使用者 " ++ u ++ " 建立成功 (ID: " ++ toString st.next_user_id ++ ")"),
       { st with users := st.users ++ [⟨st.next_user_id, u, generate_password_hash p⟩],
                 next_user_id := st.next_user_id + 1 }⟩ ∧
    admin_register cfg
      { st with users := st.users ++ [⟨st.next_user_id, u, generate_password_hash p⟩],
                next_user_id := st.next_user_id + 1 }
      (some cfg.admin_master_key) (some u) (some p2) false none =
      ⟨409, .msg "帳號已存在",
       { st with users := st.users ++ [⟨st.next_user_id, u, generate_password_hash p⟩],
                 next_user_id := st.next_user_id + 1 }⟩ := by
  constructor
  · simp [admin_register, insertUser, hu, hp, hfresh]
  · simp [admin_register, insertUser, hu, hp2, List.any_append, hfresh]

/-- Witness for C7: registering `carol` twice on the example store gives
201 then 409, with the store after the second call identical to the store
after the first. -/
theorem register_twice_conflict_witness :
    admin_register cfgEx stEx (some cfgEx.admin_master_key) (some "carol")
        (some "pw3") false none =
      ⟨201, .msg ("使用者 carol 建立成功 (ID: 3)"),
       { stEx with users := stEx.users ++ [⟨3, "carol", generate_password_hash "pw3"⟩],
                   next_user_id := 4 }⟩ ∧
    admin_register cfgEx
      { stEx with users := stEx.users ++ [⟨3, "carol", generate_password_hash "pw3"⟩],
                  next_user_id := 4 }
      (some cfgEx.admin_master_key) (some "carol") (some "pw4") false none =
      ⟨409, .msg "帳號已存在",
       { stEx with users := stEx.users ++ [⟨3, "carol", generate_password_hash "pw3"⟩],
                   next_user_id := 4 }⟩ :=
  register_twice_conflict cfgEx stEx "carol" "pw3" "pw4" (by decide) (by decide)
    (by decide) (by decide)

/-- C3: an authenticated `POST /api/media` with all required fields first
runs the per-user duplicate-title check: if an item with the same title
already exists for the caller it fails with 409 Conflict and the store is
unchanged (nothing inserted); otherwise it inserts the item scoped to the
caller's `user_id`, commits, and returns 201 carrying the newly assigned
`media_id`. -/
theorem create_checks_duplicate_then_inserts (st : Store) (uid : Nat)
    (body : MediaBody) (title mtv sv : String)
    (ht : body.title = some title) (hmt : body.media_type = some mtv)
    (hsv : body.status = some sv) :
    (st.media.any (fun m => m.title == title && m.user_id == uid) = true →
      media_post st uid body false none none =
        ⟨409, .statusMsg "error" ("《" ++ title ++ "》已經在你的清單裡囉！"), st⟩) ∧
    (st.media.any (fun m => m.title == title && m.user_id == uid) = false →
      media_post st uid body false none none =
        ⟨201, .createOk "success" "新增成功" st.next_media_id,
         { st with
           media := st.media ++
             [⟨st.next_media_id, uid, title, mtv, sv,
               body.progress, body.rating, body.comment, st.now⟩],
           next_media_id := st.next_media_id + 1 }⟩) := by
  constructor
  · intro hdup
    simp [media_post, ht, hdup]
  · intro hdup
    simp [media_post, ht, hmt, hsv, hdup]

/-- Witness for C3: on the example store (user 1 already owns "Dune"),
posting "Dune" again gives 409 with the store unchanged, and posting the
fresh title "Arrival" gives 201 with the next `media_id`. -/
theorem create_checks_duplicate_then_inserts_witness :
    media_post stEx 1 ⟨some "Dune", some "book", some "reading", none, none, none⟩
        false none none =
      ⟨409, .statusMsg "error" "《Dune》已經在你的清單裡囉！", stEx⟩ ∧
    media_post stEx 1 bodyEx false none none =
      ⟨201, .createOk "success" "新增成功" 20,
       { stEx with
         media := stEx.media ++
           [⟨20, 1, "Arrival", "movie", "plan", none, none, none, 100⟩],
         next_media_id := 21 }⟩ :=
  ⟨(create_checks_duplicate_then_inserts stEx 1
      ⟨some "Dune", some "book", some "reading", none, none, none⟩
      "Dune" "book" "reading" rfl rfl rfl).1 (by decide),
   (create_checks_duplicate_then_inserts stEx 1 bodyEx
      "Arrival" "movie" "plan" rfl rfl rfl).2 (by decide)⟩

/-- Mapping `if p a then f a else a` over a list in which no element
satisfies `p` leaves the list unchanged. -/
theorem map_ite_of_forall_false {α : Type} (p : α → Bool) (f : α → α)
    (l : List α) (h : ∀ a ∈ l, p a = false) :
    l.map (fun a => if p a then f a else a) = l := by
  induction l with
  | nil => rfl
  | cons a t ih =>
    simp only [List.map_cons, h a (List.mem_cons_self a t), if_neg Bool.false_ne_true,
      List.cons.injEq, true_and]
    exact ih fun b hb => h b (List.mem_cons_of_mem a hb)

/-- C4: when no row matches `media_id = mid AND user_id = uid` (the item is
absent or owned by another user), `DELETE` and `PUT` (with all required
fields) both answer 404 with their fixed failure message — the same
response in either case — and return the store unchanged; repeating the
same failed delete or update on the resulting store again yields the same
404, never success. -/
theorem update_delete_notfound_stable (st : Store) (uid mid : Nat)
    (body : MediaBody) (title mtv sv : String)
    (ht : body.title = some title) (hmt : body.media_type = some mtv)
    (hsv : body.status = some sv)
    (hz : st.media.countP (fun m => itemKey mid uid m) = 0) :
    item_delete st uid mid false none =
      ⟨404, .statusMsg "error" "刪除失敗 (找不到或無權限)", st⟩ ∧
    item_put st uid mid body false none =
      ⟨404, .statusMsg "error" "更新失敗 (找不到或無權限)", st⟩ ∧
    item_delete (item_delete st uid mid false none).store uid mid false none =
      ⟨404, .statusMsg "error" "刪除失敗 (找不到或無權限)", st⟩ ∧
    item_put (item_put st uid mid body false none).store uid mid body false none =
      ⟨404, .statusMsg "error" "更新失敗 (找不到或無權限)", st⟩ := by
  have hall : ∀ m ∈ st.media, itemKey mid uid m = false := by
    intro m hm
    have := (List.countP_eq_zero).1 hz m hm
    simpa using this
  have hfilter : st.media.filter (fun m => !(itemKey mid uid m)) = st.media :=
    List.filter_eq_self.2 fun m hm => by simp [hall m hm]
  have hmap : st.media.map
      (fun m => if itemKey mid uid m then applyUpdate body title mtv sv m else m) =
      st.media :=
    map_ite_of_forall_false _ _ _ hall
  have hdel : item_delete st uid mid false none =
      ⟨404, .statusMsg "error" "刪除失敗 (找不到或無權限)", st⟩ := by
    simp [item_delete, hz, hfilter]
  have hput : item_put st uid mid body false none =
      ⟨404, .statusMsg "error" "更新失敗 (找不到或無權限)", st⟩ := by
    simp [item_put, ht, hmt, hsv, hz, hmap]
  refine ⟨hdel, hput, ?_, ?_⟩
  · rw [hdel]; exact hdel
  · rw [hput]; exact hput

/-- Witness for C4: user 2 cannot delete or update user 1's item 10
(and a nonexistent id 99 behaves identically): 404 both times, store
unchanged, and repeating is stable. -/
theorem update_delete_notfound_stable_witness :
    item_delete stEx 2 10 false none =
      ⟨404, .statusMsg "error" "刪除失敗 (找不到或無權限)", stEx⟩ ∧
    item_put stEx 2 10 bodyEx false none =
      ⟨404, .statusMsg "error" "更新失敗 (找不到或無權限)", stEx⟩ ∧
    item_delete stEx 1 99 false none =
      ⟨404, .statusMsg "error" "刪除失敗 (找不到或無權限)", stEx⟩ ∧
    item_delete (item_delete stEx 2 10 false none).store 2 10 false none =
      ⟨404, .statusMsg "error" "刪除失敗 (找不到或無權限)", stEx⟩ :=
  ⟨(update_delete_notfound_stable stEx 2 10 bodyEx "Arrival" "movie" "plan"
      rfl rfl rfl (by decide)).1,
   (update_delete_notfound_stable stEx 2 10 bodyEx "Arrival" "movie" "plan"
      rfl rfl rfl (by decide)).2.1,
   (update_delete_notfound_stable stEx 1 99 bodyEx "Arrival" "movie" "plan"
      rfl rfl rfl (by decide)).1,
   (update_delete_notfound_stable stEx 2 10 bodyEx "Arrival" "movie" "plan"
      rfl rfl rfl (by decide)).2.2.1⟩

/-- C8: whenever a store-layer exception (message `e`) occurs during a
media operation or registration — at any of their `cursor.execute` call
sites, or already when opening the connection — the handler's `except`
branch catches it, rolls the transaction back so the committed store is
exactly the store the request started from (no partial state), and answers
500 with a body carrying only a string message. -/
theorem store_exception_rolls_back_500 (cfg : Config) (st : Store)
    (uid mid : Nat) (q : String) (body : MediaBody) (title mtv sv u p : String)
    (f2 : Option String) (e : String) :
    media_get st uid q false (some e) = ⟨500, .statusMsg "error" e, st⟩ ∧
    (body.title = some title →
      media_post st uid body false (some e) f2 = ⟨500, .statusMsg "error" e, st⟩) ∧
    (body.title = some title → body.media_type = some mtv →
      body.status = some sv →
      st.media.any (fun m => m.title == title && m.user_id == uid) = false →
      media_post st uid body false none (some e) = ⟨500, .statusMsg "error" e, st⟩) ∧
    (body.title = some title → body.media_type = some mtv →
      body.status = some sv →
      item_put st uid mid body false (some e) = ⟨500, .statusMsg "error" e, st⟩) ∧
    item_delete st uid mid false (some e) = ⟨500, .statusMsg "error" e, st⟩ ∧
    (u ≠ "" → p ≠ "" →
      admin_register cfg st (some cfg.admin_master_key) (some u) (some p)
        false (some e) = ⟨500, .msg e, st⟩) ∧
    media_get st uid q true none = ⟨500, .msg "DB Error", st⟩ := by
  refine ⟨rfl, fun ht => ?_, fun ht hmt hsv hdup => ?_, fun ht hmt hsv => ?_,
    rfl, fun hu hp => ?_, rfl⟩
  · simp [media_post, ht]
  · simp [media_post, ht, hmt, hsv, hdup]
  · simp [item_put, ht, hmt, hsv]
  · simp [admin_register, hu, hp]

/-- Witness for C8: a failure with message "boom" at each call site on the
example store yields 500 with that message and the untouched store. -/
theorem store_exception_rolls_back_500_witness :
    media_get stEx 1 "du" false (some "boom") =
      ⟨500, .statusMsg "error" "boom", stEx⟩ ∧
    media_post stEx 1 bodyEx false (some "boom") none =
      ⟨500, .statusMsg "error" "boom", stEx⟩ ∧
    media_post stEx 1 bodyEx false none (some "boom") =
      ⟨500, .statusMsg "error" "boom", stEx⟩ ∧
    item_put stEx 1 10 bodyEx false (some "boom") =
      ⟨500, .statusMsg "error" "boom", stEx⟩ ∧
    item_delete stEx 1 10 false (some "boom") =
      ⟨500, .statusMsg "error" "boom", stEx⟩ ∧
    admin_register cfgEx stEx (some cfgEx.admin_master_key) (some "carol")
        (some "pw3") false (some "boom") = ⟨500, .msg "boom", stEx⟩ :=
  ⟨(store_exception_rolls_back_500 cfgEx stEx 1 10 "du" bodyEx "Arrival" "movie"
      "plan" "carol" "pw3" none "boom").1,
   (store_exception_rolls_back_500 cfgEx stEx 1 10 "du" bodyEx "Arrival" "movie"
      "plan" "carol" "pw3" none "boom").2.1 rfl,
   (store_exception_rolls_back_500 cfgEx stEx 1 10 "du" bodyEx "Arrival" "movie"
      "plan" "carol" "pw3" none "boom").2.2.1 rfl rfl rfl (by decide),
   (store_exception_rolls_back_500 cfgEx stEx 1 10 "du" bodyEx "Arrival" "movie"
      "plan" "carol" "pw3" none "boom").2.2.2.1 rfl rfl rfl,
   (store_exception_rolls_back_500 cfgEx stEx 1 10 "du" bodyEx "Arrival" "movie"
      "plan" "carol" "pw3" none "boom").2.2.2.2.1,
   (store_exception_rolls_back_500 cfgEx stEx 1 10 "du" bodyEx "Arrival" "movie"
      "plan" "carol" "pw3" none "boom").2.2.2.2.2.1 (by decide) (by decide)⟩

/-- Counterexample for C10: a POST whose body omits the required
`media_type` but whose `title` duplicates an existing item of the caller is
answered 409 by the duplicate pre-check — not 500 as the claim states for
every request missing a required field. -/
theorem missing_field_counterexample :
    bodyNoType.media_type = none ∧
    (media_post stEx 1 bodyNoType false none none).code = 409 ∧
    ¬((media_post stEx 1 bodyNoType false none none).code = 500) := by
  decide

/-- C10 (amended): an authenticated POST or PUT whose body omits a required
field fails with 500 (the `KeyError` of the field access, caught by the
generic `except` handler, message the repr of the missing key), never 400,
and leaves the store unchanged — except that a POST whose `title` is
present and duplicates an existing item of the caller answers 409 before
the missing `media_type`/`status` is ever accessed (store also
unchanged). -/
theorem missing_field_behavior (st : Store) (uid mid : Nat) (body : MediaBody)
    (title mtv : String) :
    (body.title = none →
      media_post st uid body false none none =
        ⟨500, .statusMsg "error" (keyErrorStr "title"), st⟩) ∧
    (body.title = some title →
      st.media.any (fun m => m.title == title && m.user_id == uid) = true →
      media_post st uid body false none none =
        ⟨409, .statusMsg "error" ("《" ++ title ++ "》已經在你的清單裡囉！"), st⟩) ∧
    (body.title = some title → body.media_type = none →
      st.media.any (fun m => m.title == title && m.user_id == uid) = false →
      media_post st uid body false none none =
        ⟨500, .statusMsg "error" (keyErrorStr "media_type"), st⟩) ∧
    (body.title = some title → body.media_type = some mtv → body.status = none →
      st.media.any (fun m => m.title == title && m.user_id == uid) = false →
      media_post st uid body false none none =
        ⟨500, .statusMsg "error" (keyErrorStr "status"), st⟩) ∧
    (body.title = none →
      item_put st uid mid body false none =
        ⟨500, .statusMsg "error" (keyErrorStr "title"), st⟩) ∧
    (body.title = some title → body.media_type = none →
      item_put st uid mid body false none =
        ⟨500, .statusMsg "error" (keyErrorStr "media_type"), st⟩) ∧
    (body.title = some title → body.media_type = some mtv → body.status = none →
      item_put st uid mid body false none =
        ⟨500, .statusMsg "error" (keyErrorStr "status"), st⟩) := by
  refine ⟨fun h1 => ?_, fun h1 h2 => ?_, fun h1 h2 h3 => ?_, fun h1 h2 h3 h4 => ?_,
    fun h1 => ?_, fun h1 h2 => ?_, fun h1 h2 h3 => ?_⟩
  · simp [media_post, h1]
  · simp [media_post, h1, h2]
  · simp [media_post, h1, h2, h3]
  · simp [media_post, h1, h2, h3, h4]
  · simp [item_put, h1]
  · simp [item_put, h1, h2]
  · simp [item_put, h1, h2, h3]

/-- Witness for C10 (amended): concrete bodies omitting each required field
against the example store. -/
theorem missing_field_behavior_witness :
    media_post stEx 1 ⟨none, some "movie", some "plan", none, none, none⟩
        false none none =
      ⟨500, .statusMsg "error" (keyErrorStr "title"), stEx⟩ ∧
    media_post stEx 1 bodyNoType false none none =
      ⟨409, .statusMsg "error" "《Dune》已經在你的清單裡囉！", stEx⟩ ∧
    media_post stEx 1 ⟨some "Arrival", none, some "plan", none, none, none⟩
        false none none =
      ⟨500, .statusMsg "error" (keyErrorStr "media_type"), stEx⟩ ∧
    item_put stEx 1 10 ⟨some "Arrival", some "movie", none, none, none, none⟩
        false none =
      ⟨500, .statusMsg "error" (keyErrorStr "status"), stEx⟩ :=
  ⟨(missing_field_behavior stEx 1 10
      ⟨none, some "movie", some "plan", none, none, none⟩ "Arrival" "movie").1 rfl,
   (missing_field_behavior stEx 1 10 bodyNoType "Dune" "movie").2.1 rfl (by decide),
   (missing_field_behavior stEx 1 10
      ⟨some "Arrival", none, some "plan", none, none, none⟩ "Arrival" "movie").2.2.1
      rfl rfl (by decide),
   (missing_field_behavior stEx 1 10
      ⟨some "Arrival", some "movie", none, none, none, none⟩ "Arrival" "movie").2.2.2.2.2.2
      rfl rfl rfl⟩

/-- Any two sufficient fuels compute the same `LIKE` match. -/
theorem likeMatchAux_irrel :
    ∀ (fuel1 fuel2 : Nat) (p s : List Char),
      p.length + s.length < fuel1 → p.length + s.length < fuel2 →
      likeMatchAux fuel1 p s = likeMatchAux fuel2 p s := by
  intro fuel1
  induction fuel1 with
  | zero => intro fuel2 p s h1 h2; omega
  | succ n ih =>
    intro fuel2 p s h1 h2
    cases fuel2 with
    | zero => omega
    | succ m =>
      cases p with
      | nil => rfl
      | cons a ps =>
        cases s with
        | nil =>
          simp only [likeMatchAux]
          by_cases hpct : a = '%'
          · rw [if_pos hpct, if_pos hpct]
            apply ih
            · simp only [List.length_cons] at h1 ⊢; omega
            · simp only [List.length_cons] at h2 ⊢; omega
          · rw [if_neg hpct, if_neg hpct]
        | cons c s2 =>
          simp only [likeMatchAux]
          by_cases hpct : a = '%'
          · rw [if_pos hpct, if_pos hpct]
            have e1 : likeMatchAux n ps (c :: s2) = likeMatchAux m ps (c :: s2) := by
              apply ih
              · simp only [List.length_cons] at h1 ⊢; omega
              · simp only [List.length_cons] at h2 ⊢; omega
            have e2 : likeMatchAux n (a :: ps) s2 = likeMatchAux m (a :: ps) s2 := by
              apply ih
              · simp only [List.length_cons] at h1 ⊢; omega
              · simp only [List.length_cons] at h2 ⊢; omega
            rw [e1, e2]
          · rw [if_neg hpct, if_neg hpct]
            by_cases hesc : a = '\\'
            · rw [if_pos hesc, if_pos hesc]
              cases ps with
              | nil => rfl
              | cons b ps2 =>
                dsimp only
                have e3 : likeMatchAux n ps2 s2 = likeMatchAux m ps2 s2 := by
                  apply ih
                  · simp only [List.length_cons] at h1 ⊢; omega
                  · simp only [List.length_cons] at h2 ⊢; omega
                rw [e3]
            · rw [if_neg hesc, if_neg hesc]
              by_cases hund : a = '_'
              · rw [if_pos hund, if_pos hund]
                apply ih
                · simp only [List.length_cons] at h1 ⊢; omega
                · simp only [List.length_cons] at h2 ⊢; omega
              · rw [if_neg hund, if_neg hund]
                have e5 : likeMatchAux n ps s2 = likeMatchAux m ps s2 := by
                  apply ih
                  · simp only [List.length_cons] at h1 ⊢; omega
                  · simp only [List.length_cons] at h2 ⊢; omega
                rw [e5]

/-- A sufficient fuel computes `likeMatch`. -/
theorem likeMatchAux_eq (fuel : Nat) (p s : List Char)
    (h : p.length + s.length < fuel) :
    likeMatchAux fuel p s = likeMatch p s :=
  likeMatchAux_irrel fuel (p.length + s.length + 1) p s h (Nat.lt_succ_self _)

/-- `likeMatch` on the empty pattern. -/
theorem likeMatch_nil_eq (s : List Char) : likeMatch [] s = s.isEmpty := rfl

/-- `likeMatch` on a leading `%` against the empty string. -/
theorem likeMatch_pct_nil_eq (ps : List Char) :
    likeMatch ('%' :: ps) [] = likeMatch ps [] := by
  show likeMatchAux _ ('%' :: ps) [] = _
  simp only [likeMatchAux]
  rw [likeMatchAux_eq _ ps [] (by simp only [List.length_cons, List.length_nil]; omega)]
  exact if_pos trivial

/-- `likeMatch` on a leading `%` against a non-empty string: either the
`%` matches nothing, or it absorbs the first character. -/
theorem likeMatch_pct_cons_eq (ps : List Char) (c : Char) (s : List Char) :
    likeMatch ('%' :: ps) (c :: s) =
      (likeMatch ps (c :: s) || likeMatch ('%' :: ps) s) := by
  show likeMatchAux _ ('%' :: ps) (c :: s) = _
  simp only [likeMatchAux]
  rw [likeMatchAux_eq _ ps (c :: s)
        (by simp only [List.length_cons]; omega),
    likeMatchAux_eq _ ('%' :: ps) s
        (by simp only [List.length_cons]; omega)]
  exact if_pos trivial

/-- `likeMatch` on a leading plain character against the empty string. -/
theorem likeMatch_plain_nil_eq (a : Char) (ps : List Char)
    (h1 : a ≠ '%') :
    likeMatch (a :: ps) [] = false := by
  show likeMatchAux _ (a :: ps) [] = _
  simp only [likeMatchAux]
  rw [if_neg h1]

/-- `likeMatch` on a leading plain character against a non-empty string:
the characters must agree up to lower-casing. -/
theorem likeMatch_plain_cons_eq (a : Char) (ps : List Char) (c : Char)
    (s : List Char) (h1 : a ≠ '%') (h2 : a ≠ '_') (h3 : a ≠ '\\') :
    likeMatch (a :: ps) (c :: s) =
      ((a.toLower = c.toLower) && likeMatch ps s) := by
  show likeMatchAux _ (a :: ps) (c :: s) = _
  simp only [likeMatchAux]
  rw [likeMatchAux_eq _ ps s (by simp only [List.length_cons]; omega)]
  rw [if_neg h1, if_neg h3, if_neg h2]

/-- A pattern of plain characters (no `%`, `_`, `\`) matches exactly the
strings equal to it up to lower-casing. -/
theorem likeMatch_clean_exact (p : List Char)
    (hp : ∀ c ∈ p, c ≠ '%' ∧ c ≠ '_' ∧ c ≠ '\\') :
    ∀ s, likeMatch p s = true ↔ p.map Char.toLower = s.map Char.toLower := by
  induction p with
  | nil =>
    intro s
    rw [likeMatch_nil_eq]
    cases s <;> simp
  | cons a p ih =>
    intro s
    obtain ⟨ha1, ha2, ha3⟩ := hp a (List.mem_cons_self a p)
    have hp2 := fun c hc => hp c (List.mem_cons_of_mem a hc)
    cases s with
    | nil =>
      rw [likeMatch_plain_nil_eq a p ha1]
      simp
    | cons c s =>
      rw [likeMatch_plain_cons_eq a p c s ha1 ha2 ha3]
      simp only [Bool.and_eq_true, decide_eq_true_eq, ih hp2, List.map_cons,
        List.cons.injEq]

/-- A leading `%` matches a string iff some split lets the rest of the
pattern match the tail. -/
theorem likeMatch_pct_iff (p : List Char) :
    ∀ s, likeMatch ('%' :: p) s = true ↔
      ∃ s1 s2, s = s1 ++ s2 ∧ likeMatch p s2 = true := by
  intro s
  induction s with
  | nil =>
    rw [likeMatch_pct_nil_eq]
    constructor
    · intro h
      exact ⟨[], [], rfl, h⟩
    · rintro ⟨s1, s2, he, h⟩
      obtain ⟨h1, h2⟩ := List.append_eq_nil.1 he.symm
      subst h1
      subst h2
      exact h
  | cons c s ih =>
    rw [likeMatch_pct_cons_eq]
    simp only [Bool.or_eq_true, ih]
    constructor
    · rintro (h | ⟨s1, s2, rfl, h⟩)
      · exact ⟨[], c :: s, rfl, h⟩
      · exact ⟨c :: s1, s2, rfl, h⟩
    · rintro ⟨s1, s2, he, h⟩
      cases s1 with
      | nil =>
        left
        simp only [List.nil_append] at he
        rw [he]
        exact h
      | cons b s1 =>
        right
        rw [List.cons_append] at he
        injection he with he1 he2
        subst he1
        exact ⟨s1, s2, he2, h⟩

/-- A clean pattern followed by `%` matches a string iff the string begins
(up to lower-casing) with the pattern. -/
theorem likeMatch_clean_pct_iff (q : List Char)
    (hq : ∀ c ∈ q, c ≠ '%' ∧ c ≠ '_' ∧ c ≠ '\\') :
    ∀ s, likeMatch (q ++ ['%']) s = true ↔
      ∃ s1 s2, s = s1 ++ s2 ∧ q.map Char.toLower = s1.map Char.toLower := by
  induction q with
  | nil =>
    intro s
    rw [List.nil_append, likeMatch_pct_iff]
    constructor
    · rintro ⟨s1, s2, rfl, h⟩
      exact ⟨[], s1 ++ s2, rfl, rfl⟩
    · rintro ⟨s1, s2, rfl, h⟩
      refine ⟨s1 ++ s2, [], (List.append_nil _).symm, ?_⟩
      rw [likeMatch_nil_eq]
      rfl
  | cons a q ih =>
    intro s
    obtain ⟨ha1, ha2, ha3⟩ := hq a (List.mem_cons_self a q)
    have hq2 := fun c hc => hq c (List.mem_cons_of_mem a hc)
    rw [List.cons_append]
    cases s with
    | nil =>
      rw [likeMatch_plain_nil_eq a _ ha1]
      simp only [Bool.false_eq_true, false_iff]
      rintro ⟨s1, s2, he, hm⟩
      obtain ⟨h1, h2⟩ := List.append_eq_nil.1 he.symm
      subst h1
      simp at hm
    | cons c s =>
      rw [likeMatch_plain_cons_eq a _ c s ha1 ha2 ha3]
      simp only [Bool.and_eq_true, decide_eq_true_eq, ih hq2]
      constructor
      · rintro ⟨hac, s1, s2, rfl, hm⟩
        refine ⟨c :: s1, s2, rfl, ?_⟩
        simp [hac, hm]
      · rintro ⟨s1, s2, he, hm⟩
        cases s1 with
        | nil => simp at hm
        | cons b s1 =>
          rw [List.cons_append] at he
          injection he with he1 he2
          simp only [List.map_cons, List.cons.injEq] at hm
          subst he1
          exact ⟨hm.1, s1, s2, he2, hm.2⟩

/-- `infixCheck` decides contiguous-sublist occurrence. -/
theorem infixCheck_iff (p : List Char) :
    ∀ l, infixCheck p l = true ↔ ∃ pre post, l = pre ++ (p ++ post) := by
  intro l
  induction l with
  | nil =>
    rw [infixCheck]
    simp only [Bool.or_false]
    constructor
    · intro h
      cases p with
      | nil => exact ⟨[], [], rfl⟩
      | cons a p => simp [List.isPrefixOf] at h
    · rintro ⟨pre, post, he⟩
      obtain ⟨h1, h2⟩ := List.append_eq_nil.1 he.symm
      obtain ⟨h3, h4⟩ := List.append_eq_nil.1 h2
      subst h1
      subst h3
      rfl
  | cons c l ih =>
    rw [infixCheck]
    simp only [Bool.or_eq_true, ih]
    constructor
    · rintro (h | ⟨pre, post, rfl⟩)
      · obtain ⟨t, ht⟩ := List.isPrefixOf_iff_prefix.1 h
        exact ⟨[], t, ht.symm⟩
      · exact ⟨c :: pre, post, rfl⟩
    · rintro ⟨pre, post, he⟩
      cases pre with
      | nil =>
        left
        simp only [List.nil_append] at he
        exact List.isPrefixOf_iff_prefix.2 ⟨post, he.symm⟩
      | cons b pre =>
        right
        rw [List.cons_append] at he
        injection he with he1 he2
        subst he1
        exact ⟨pre, post, he2⟩

/-- The empty search string occurs in every title. -/
theorem containsCI_empty (s : String) : containsCI s "" = true := by
  rw [containsCI]
  have hq : ("" : String).data = [] := rfl
  rw [hq]
  cases s.data.map Char.toLower with
  | nil => rfl
  | cons c t =>
    rw [infixCheck]
    rfl

/-- The source's `title ILIKE %q%` agrees with the specification's
case-insensitive substring search whenever `q` contains no LIKE
metacharacter. -/
theorem ilike_pct_eq_containsCI (s q : String) (hq : cleanQuery q = true) :
    ilike s ("%" ++ q ++ "%") = containsCI s q := by
  have hclean : ∀ c ∈ q.data, c ≠ '%' ∧ c ≠ '_' ∧ c ≠ '\\' := by
    intro c hc
    have h := List.all_eq_true.1 hq c hc
    simp only [Bool.not_eq_true', Bool.or_eq_false_iff, beq_eq_false_iff_ne] at h
    exact ⟨h.1.1, h.1.2, h.2⟩
  have hdata : ("%" ++ q ++ "%").data = '%' :: (q.data ++ ['%']) := by
    rw [String.data_append, String.data_append]
    rfl
  rw [Bool.eq_iff_iff]
  rw [show ilike s ("%" ++ q ++ "%") = likeMatch ('%' :: (q.data ++ ['%'])) s.data
      from by rw [ilike, hdata]]
  rw [likeMatch_pct_iff, containsCI, infixCheck_iff]
  constructor
  · rintro ⟨s1, s2, hsplit, h⟩
    obtain ⟨s3, s4, rfl, hm⟩ := (likeMatch_clean_pct_iff q.data hclean s2).1 h
    refine ⟨s1.map Char.toLower, s4.map Char.toLower, ?_⟩
    rw [hsplit, hm]
    simp [List.map_append]
  · rintro ⟨pre, post, hsplit⟩
    obtain ⟨u, v, huv, hu, hv⟩ := List.map_eq_append_iff.1 hsplit
    obtain ⟨x, y, hxy, hx, hy⟩ := List.map_eq_append_iff.1 hv
    refine ⟨u, v, huv, ?_⟩
    exact (likeMatch_clean_pct_iff q.data hclean v).2 ⟨x, y, hxy, hx.symm⟩

/-- A token signed with the configured key verifies and exposes its
subject. -/
theorem verify_jwt_valid (cfg : Config) (a : Nat) :
    verify_jwt cfg (some (create_access_token cfg.jwt_secret_key a)) = some a := by
  simp [verify_jwt, create_access_token]

/-- A matching row of `WHERE media_id = %s AND user_id = %s` is owned by
`uid`. -/
theorem itemKey_user_eq {mid uid : Nat} {m : MediaItem}
    (h : itemKey mid uid m = true) : m.user_id = uid := by
  simp [itemKey] at h
  exact h.2

/-- Every item in a GET result belongs to the queried user. -/
theorem media_get_items_owned (st : Store) (uid : Nat) (q : String)
    (cf : Bool) (f1 : Option String) :
    ∀ m ∈ (media_get st uid q cf f1).resp.items, m.user_id = uid := by
  intro m hm
  cases cf with
  | true => simp [media_get, Resp.items] at hm
  | false =>
    cases f1 with
    | some e => simp [media_get, Resp.items] at hm
    | none =>
      simp only [media_get, if_neg Bool.false_ne_true, Resp.items, listMedia,
        List.mem_insertionSort] at hm
      by_cases hq : q = ""
      · rw [if_pos hq] at hm
        have := (List.mem_filter.1 hm).2
        simpa using this
      · rw [if_neg hq] at hm
        have := (List.mem_filter.1 (List.mem_filter.1 hm).1).2
        simpa using this

/-- GET never changes the store. -/
theorem media_get_store (st : Store) (uid : Nat) (q : String) (cf : Bool)
    (f1 : Option String) : (media_get st uid q cf f1).store = st := by
  cases cf <;> cases f1 <;> rfl

/-- The store a POST leaves behind: either untouched, or with exactly one
item appended, owned by the caller. -/
theorem media_post_media_cases (st : Store) (uid : Nat) (body : MediaBody)
    (cf : Bool) (f1 f2 : Option String) :
    (media_post st uid body cf f1 f2).store.media = st.media ∨
    ∃ n : MediaItem, n.user_id = uid ∧
      (media_post st uid body cf f1 f2).store.media = st.media ++ [n] := by
  unfold media_post
  repeat' split
  all_goals first
    | exact Or.inl rfl
    | exact Or.inr ⟨_, rfl, rfl⟩

/-- The store a PUT leaves behind: either untouched, or with the rows
matching `media_id AND user_id` rewritten in place. -/
theorem item_put_media_cases (st : Store) (uid mid : Nat) (body : MediaBody)
    (cf : Bool) (f1 : Option String) :
    (item_put st uid mid body cf f1).store.media = st.media ∨
    ∃ t mt sv, (item_put st uid mid body cf f1).store.media =
      st.media.map
        (fun m => if itemKey mid uid m then applyUpdate body t mt sv m else m) := by
  unfold item_put
  repeat' split
  all_goals first
    | exact Or.inl rfl
    | (right
       dsimp only
       split <;> exact ⟨_, _, _, rfl⟩)

/-- The store a DELETE leaves behind: either untouched, or with exactly the
rows matching `media_id AND user_id` removed. -/
theorem item_delete_media_cases (st : Store) (uid mid : Nat) (cf : Bool)
    (f1 : Option String) :
    (item_delete st uid mid cf f1).store.media = st.media ∨
    (item_delete st uid mid cf f1).store.media =
      st.media.filter (fun m => !(itemKey mid uid m)) := by
  unfold item_delete
  repeat' split
  all_goals first
    | exact Or.inl rfl
    | (right
       dsimp only
       split <;> rfl)

/-- Rewriting the rows of `uid` in place does not change the rows of any
other user `b`. -/
theorem filter_map_update_eq (l : List MediaItem) (uid mid b : Nat)
    (body : MediaBody) (t mt sv : String) (hB : (uid == b) = false) :
    (l.map (fun m => if itemKey mid uid m then applyUpdate body t mt sv m else m)).filter
        (fun m => m.user_id == b) =
      l.filter (fun m => m.user_id == b) := by
  induction l with
  | nil => rfl
  | cons m tl ih =>
    by_cases hk : itemKey mid uid m = true
    · have hu : m.user_id = uid := itemKey_user_eq hk
      have hub : (m.user_id == b) = false := by rw [hu]; exact hB
      have hub2 : ((applyUpdate body t mt sv m).user_id == b) = false := hub
      rw [List.map_cons, if_pos hk, List.filter_cons, List.filter_cons,
        if_neg (by simp [hub2]), if_neg (by simp [hub]), ih]
    · rw [List.map_cons, if_neg hk]
      simp only [List.filter_cons, ih]

/-- Removing rows of `uid` does not change the rows of any other user
`b`. -/
theorem filter_key_filter_other (l : List MediaItem) (uid mid b : Nat)
    (hB : (uid == b) = false) :
    (l.filter (fun m => !(itemKey mid uid m))).filter (fun m => m.user_id == b) =
      l.filter (fun m => m.user_id == b) := by
  induction l with
  | nil => rfl
  | cons m tl ih =>
    by_cases hk : itemKey mid uid m = true
    · have hu : m.user_id = uid := itemKey_user_eq hk
      have hub : (m.user_id == b) = false := by rw [hu]; exact hB
      rw [List.filter_cons, if_neg (by simp [hk]), List.filter_cons,
        if_neg (by simp [hub]), ih]
    · have hk2 : itemKey mid uid m = false := by simpa using hk
      rw [List.filter_cons, if_pos (by simp [hk2])]
      simp only [List.filter_cons, ih]

/-- C1 (tenant isolation): every media operation performed with a valid
token whose identity is `a` returns only rows owned by `a` and mutates only
rows owned by `a`: GET returns only `a`'s items and leaves the store
untouched; POST can only append an item owned by `a` and removes nothing;
PUT and DELETE can only rewrite or remove rows owned by `a`; and for any
other user `b ≠ a`, the rows of `b` after any of the four operations are
exactly the rows of `b` before — all regardless of the request body, query
string, path id, and any store failure. -/
theorem tenant_isolation (cfg : Config) (st : Store) (a b : Nat) (q : String)
    (body : MediaBody) (mid : Nat) (cf1 cf2 cf3 cf4 : Bool)
    (g1 p1 p2 u1 d1 : Option String) (hAB : b ≠ a) :
    ((media_api_get cfg st (some (create_access_token cfg.jwt_secret_key a)) q
        cf1 g1).resp.items.all (fun m => m.user_id == a) = true) ∧
    (media_api_get cfg st (some (create_access_token cfg.jwt_secret_key a)) q
        cf1 g1).store = st ∧
    ((media_api_post cfg st (some (create_access_token cfg.jwt_secret_key a))
        body cf2 p1 p2).store.media.filter (fun m => m.user_id == b) =
      st.media.filter (fun m => m.user_id == b)) ∧
    ((media_api_post cfg st (some (create_access_token cfg.jwt_secret_key a))
        body cf2 p1 p2).store.media.all
        (fun m => decide (m ∈ st.media) || (m.user_id == a)) = true) ∧
    (st.media.all
        (fun m => decide (m ∈ (media_api_post cfg st
          (some (create_access_token cfg.jwt_secret_key a)) body cf2 p1
          p2).store.media)) = true) ∧
    ((item_api_put cfg st (some (create_access_token cfg.jwt_secret_key a)) mid
        body cf3 u1).store.media.filter (fun m => m.user_id == b) =
      st.media.filter (fun m => m.user_id == b)) ∧
    ((item_api_put cfg st (some (create_access_token cfg.jwt_secret_key a)) mid
        body cf3 u1).store.media.all
        (fun m => decide (m ∈ st.media) || (m.user_id == a)) = true) ∧
    (st.media.all
        (fun m => decide (m ∈ (item_api_put cfg st
          (some (create_access_token cfg.jwt_secret_key a)) mid body cf3
          u1).store.media) || (m.user_id == a)) = true) ∧
    ((item_api_delete cfg st (some (create_access_token cfg.jwt_secret_key a))
        mid cf4 d1).store.media.filter (fun m => m.user_id == b) =
      st.media.filter (fun m => m.user_id == b)) ∧
    ((item_api_delete cfg st (some (create_access_token cfg.jwt_secret_key a))
        mid cf4 d1).store.media.all (fun m => decide (m ∈ st.media)) = true) ∧
    (st.media.all
        (fun m => decide (m ∈ (item_api_delete cfg st
          (some (create_access_token cfg.jwt_secret_key a)) mid cf4
          d1).store.media) || (m.user_id == a)) = true) := by
  have hBA : (a == b) = false := by
    exact beq_eq_false_iff_ne.2 fun h => hAB h.symm
  have hg : media_api_get cfg st (some (create_access_token cfg.jwt_secret_key a))
      q cf1 g1 = media_get st a q cf1 g1 := by
    simp [media_api_get, verify_jwt_valid]
  have hp : media_api_post cfg st (some (create_access_token cfg.jwt_secret_key a))
      body cf2 p1 p2 = media_post st a body cf2 p1 p2 := by
    simp [media_api_post, verify_jwt_valid]
  have hu : item_api_put cfg st (some (create_access_token cfg.jwt_secret_key a))
      mid body cf3 u1 = item_put st a mid body cf3 u1 := by
    simp [item_api_put, verify_jwt_valid]
  have hd : item_api_delete cfg st (some (create_access_token cfg.jwt_secret_key a))
      mid cf4 d1 = item_delete st a mid cf4 d1 := by
    simp [item_api_delete, verify_jwt_valid]
  rw [hg, hp, hu, hd]
  refine ⟨?_, media_get_store st a q cf1 g1, ?_, ?_, ?_, ?_, ?_, ?_, ?_, ?_, ?_⟩
  · rw [List.all_eq_true]
    intro m hm
    have := media_get_items_owned st a q cf1 g1 m hm
    simp [this]
  · rcases media_post_media_cases st a body cf2 p1 p2 with h | ⟨n, hn, h⟩
    · rw [h]
    · rw [h, List.filter_append]
      have : (n.user_id == b) = false := by rw [hn]; exact hBA
      simp [this]
  · rw [List.all_eq_true]
    intro m hm
    rcases media_post_media_cases st a body cf2 p1 p2 with h | ⟨n, hn, h⟩
    · rw [h] at hm
      simp [hm]
    · rw [h] at hm
      rcases List.mem_append.1 hm with h2 | h2
      · simp [h2]
      · have : m = n := by simpa using h2
        subst this
        simp [hn]
  · rw [List.all_eq_true]
    intro m hm
    rcases media_post_media_cases st a body cf2 p1 p2 with h | ⟨n, hn, h⟩
    · rw [h]
      simp [hm]
    · rw [h]
      simp [List.mem_append, hm]
  · rcases item_put_media_cases st a mid body cf3 u1 with h | ⟨t, mt, sv, h⟩
    · rw [h]
    · rw [h]
      exact filter_map_update_eq st.media a mid b body t mt sv hBA
  · rw [List.all_eq_true]
    intro m hm
    rcases item_put_media_cases st a mid body cf3 u1 with h | ⟨t, mt, sv, h⟩
    · rw [h] at hm
      simp [hm]
    · rw [h] at hm
      obtain ⟨m0, hm0, hfm⟩ := List.mem_map.1 hm
      by_cases hk : itemKey mid a m0 = true
      · rw [if_pos hk] at hfm
        have : m.user_id = a := by
          rw [← hfm]
          exact itemKey_user_eq hk
        simp [this]
      · rw [if_neg hk] at hfm
        subst hfm
        simp [hm0]
  · rw [List.all_eq_true]
    intro m hm
    rcases item_put_media_cases st a mid body cf3 u1 with h | ⟨t, mt, sv, h⟩
    · rw [h]
      simp [hm]
    · rw [h]
      by_cases hk : itemKey mid a m = true
      · have := itemKey_user_eq hk
        simp [this]
      · have : m ∈ st.media.map
            (fun x => if itemKey mid a x then applyUpdate body t mt sv x else x) :=
          List.mem_map.2 ⟨m, hm, by rw [if_neg hk]⟩
        simp [this]
  · rcases item_delete_media_cases st a mid cf4 d1 with h | h
    · rw [h]
    · rw [h]
      exact filter_key_filter_other st.media a mid b hBA
  · rw [List.all_eq_true]
    intro m hm
    rcases item_delete_media_cases st a mid cf4 d1 with h | h
    · rw [h] at hm
      simp [hm]
    · rw [h] at hm
      have := (List.mem_filter.1 hm).1
      simp [this]
  · rw [List.all_eq_true]
    intro m hm
    rcases item_delete_media_cases st a mid cf4 d1 with h | h
    · rw [h]
      simp [hm]
    · rw [h]
      by_cases hk : itemKey mid a m = true
      · have := itemKey_user_eq hk
        simp [this]
      · have : m ∈ st.media.filter (fun x => !(itemKey mid a x)) :=
          List.mem_filter.2 ⟨hm, by simp [hk]⟩
        simp [this]

/-- Witness for C1: user 1's valid token against the example store (which
holds items of users 1 and 2): the GET result is all user-1 rows, a DELETE
aimed at user 2's item 12 leaves user 2's rows intact, a PUT aimed at item
12 leaves user 2's rows intact, and a POST leaves user 2's rows intact. -/
theorem tenant_isolation_witness :
    ((media_api_get cfgEx stEx
        (some (create_access_token cfgEx.jwt_secret_key 1)) "" false
        none).resp.items.all (fun m => m.user_id == 1) = true) ∧
    ((item_api_delete cfgEx stEx
        (some (create_access_token cfgEx.jwt_secret_key 1)) 12 false
        none).store.media.filter (fun m => m.user_id == 2) =
      stEx.media.filter (fun m => m.user_id == 2)) ∧
    ((item_api_put cfgEx stEx
        (some (create_access_token cfgEx.jwt_secret_key 1)) 12 bodyEx false
        none).store.media.filter (fun m => m.user_id == 2) =
      stEx.media.filter (fun m => m.user_id == 2)) ∧
    ((media_api_post cfgEx stEx
        (some (create_access_token cfgEx.jwt_secret_key 1)) bodyEx false none
        none).store.media.filter (fun m => m.user_id == 2) =
      stEx.media.filter (fun m => m.user_id == 2)) :=
  ⟨(tenant_isolation cfgEx stEx 1 2 "" bodyEx 12 false false false false
      none none none none none (by decide)).1,
   (tenant_isolation cfgEx stEx 1 2 "" bodyEx 12 false false false false
      none none none none none (by decide)).2.2.2.2.2.2.2.2.1,
   (tenant_isolation cfgEx stEx 1 2 "" bodyEx 12 false false false false
      none none none none none (by decide)).2.2.2.2.2.1,
   (tenant_isolation cfgEx stEx 1 2 "" bodyEx 12 false false false false
      none none none none none (by decide)).2.2.1⟩

/-- Unfolding of `listMedia`. -/
theorem listMedia_eq (st : Store) (uid : Nat) (q : String) :
    listMedia st uid q =
      ((if q = "" then st.media.filter (fun m => m.user_id == uid)
        else (st.media.filter (fun m => m.user_id == uid)).filter
          (fun m => ilike m.title ("%" ++ q ++ "%"))).insertionSort
        (fun a b => b.added_date ≤ a.added_date)) := rfl

/-- Membership in a GET result set, for a metacharacter-free query: exactly
the caller's items whose title contains the query case-insensitively. -/
theorem mem_listMedia_iff (st : Store) (uid : Nat) (q : String)
    (hq : cleanQuery q = true) (m : MediaItem) :
    m ∈ listMedia st uid q ↔
      (m ∈ st.media ∧ m.user_id = uid ∧ containsCI m.title q = true) := by
  rw [listMedia_eq, List.mem_insertionSort]
  by_cases h : q = ""
  · subst h
    rw [if_pos rfl, List.mem_filter]
    simp [containsCI_empty]
  · rw [if_neg h, List.mem_filter, List.mem_filter]
    rw [ilike_pct_eq_containsCI m.title q hq]
    simp [and_assoc]

/-- A list sorted under the descending-date relation passes the
`sortedByDateDesc` check. -/
theorem sortedByDateDesc_of_sorted :
    ∀ l : List MediaItem,
      List.Sorted (fun a b => b.added_date ≤ a.added_date) l →
      sortedByDateDesc l = true := by
  intro l
  induction l with
  | nil => intro _; rfl
  | cons a t ih =>
    intro h
    cases t with
    | nil => rfl
    | cons b t2 =>
      rw [sortedByDateDesc]
      have h1 := List.sorted_cons.1 h
      rw [decide_eq_true (h1.1 b (List.mem_cons_self b t2)), Bool.true_and]
      exact ih h1.2

/-- Counterexample for C2: searching with `q = "%"` (a LIKE wildcard, sent
verbatim into the `ILIKE` pattern) returns user 1's item "Dune" even though
"%" is not a substring of its title — so the result set is not "exactly the
items whose title contains q" for every query string. -/
theorem wildcard_search_counterexample :
    (media_get stEx 1 "%" false none).code = 200 ∧
    itemDune ∈ (media_get stEx 1 "%" false none).resp.items ∧
    containsCI itemDune.title "%" = false := by
  decide

/-- C2 (amended): for every authenticated user and every query string `q`
free of LIKE metacharacters (`%`, `_`, `\`), `GET /api/media?q=` answers
200 with exactly those items owned by the caller whose title contains `q`
as a case-insensitive substring (all of the caller's items when `q` is
empty/absent), ordered by `added_date` descending; an empty result is a
success, not an error.  (For `q` containing metacharacters the filter
follows SQL `ILIKE` semantics of the pattern `%q%` instead.) -/
theorem list_search_contract (st : Store) (uid : Nat) (q : String)
    (hq : cleanQuery q = true) :
    (media_get st uid q false none).code = 200 ∧
    sortedByDateDesc (media_get st uid q false none).resp.items = true ∧
    ((media_get st uid q false none).resp.items.all
      (fun m => decide (m ∈ st.media) && (m.user_id == uid) &&
        containsCI m.title q) = true) ∧
    (st.media.all
      (fun m => !((m.user_id == uid) && containsCI m.title q) ||
        decide (m ∈ (media_get st uid q false none).resp.items)) = true) := by
  have hres : media_get st uid q false none =
      ⟨200, .listOk (listMedia st uid q), st⟩ := rfl
  rw [hres]
  refine ⟨rfl, ?_, ?_, ?_⟩
  · show sortedByDateDesc (listMedia st uid q) = true
    rw [listMedia_eq]
    exact sortedByDateDesc_of_sorted _ (List.sorted_insertionSort _ _)
  · rw [List.all_eq_true]
    intro m hm
    obtain ⟨h1, h2, h3⟩ := (mem_listMedia_iff st uid q hq m).1 hm
    simp [h1, h2, h3]
  · rw [List.all_eq_true]
    intro m hm
    cases hu : (m.user_id == uid) with
    | false => simp
    | true =>
      cases hc : containsCI m.title q with
      | false => simp
      | true =>
        have hmem : m ∈ listMedia st uid q :=
          (mem_listMedia_iff st uid q hq m).2 ⟨hm, by simpa using hu, hc⟩
        simp [Resp.items, hmem]

/-- Witness for C2 (amended): the metacharacter-free search "dune" on the
example store answers 200 and each returned item is an owned item whose
title contains "dune" case-insensitively; item "Dune" of user 1 is indeed
returned, and user 2's identically titled item is not. -/
theorem list_search_contract_witness :
    cleanQuery "dune" = true ∧
    (media_get stEx 1 "dune" false none).code = 200 ∧
    ((media_get stEx 1 "dune" false none).resp.items.all
      (fun m => decide (m ∈ stEx.media) && (m.user_id == 1) &&
        containsCI m.title "dune") = true) ∧
    itemDune ∈ (media_get stEx 1 "dune" false none).resp.items ∧
    itemBobDune ∉ (media_get stEx 1 "dune" false none).resp.items :=
  ⟨by decide, (list_search_contract stEx 1 "dune" (by decide)).1,
   (list_search_contract stEx 1 "dune" (by decide)).2.2.1,
   by decide, by decide⟩

/-- C9: creating an item with given fields and then listing the caller's
items returns that item: the request's `title`, `media_type`, `status`,
`progress`, `rating` and `comment` come back verbatim, together with the
store-assigned `media_id` (the one the 201 response carries) and
`added_date`. -/
theorem create_then_list_roundtrip (st : Store) (uid : Nat) (body : MediaBody)
    (title mtv sv : String)
    (ht : body.title = some title) (hmt : body.media_type = some mtv)
    (hsv : body.status = some sv)
    (hdup : st.media.any (fun m => m.title == title && m.user_id == uid) = false) :
    (media_post st uid body false none none).code = 201 ∧
    (media_post st uid body false none none).resp =
      .createOk "success" "新增成功" st.next_media_id ∧
    (⟨st.next_media_id, uid, title, mtv, sv, body.progress, body.rating,
       body.comment, st.now⟩ : MediaItem) ∈
      (media_get (media_post st uid body false none none).store uid "" false
        none).resp.items := by
  have hpost : media_post st uid body false none none =
      ⟨201, .createOk "success" "新增成功" st.next_media_id,
       { st with
         media := st.media ++
           [⟨st.next_media_id, uid, title, mtv, sv,
             body.progress, body.rating, body.comment, st.now⟩],
         next_media_id := st.next_media_id + 1 }⟩ := by
    simp [media_post, ht, hmt, hsv, hdup]
  rw [hpost]
  refine ⟨rfl, rfl, ?_⟩
  show _ ∈ listMedia _ uid ""
  refine (mem_listMedia_iff _ uid "" (by decide) _).2 ⟨?_, rfl, containsCI_empty _⟩
  simp

/-- Witness for C9: posting "Arrival" as user 1 to the example store
returns 201 with `media_id` 20, and the subsequent list contains the item
with exactly the posted fields, id 20 and the store clock 100. -/
theorem create_then_list_roundtrip_witness :
    (media_post stEx 1 bodyEx false none none).code = 201 ∧
    (⟨20, 1, "Arrival", "movie", "plan", none, none, none, 100⟩ : MediaItem) ∈
      (media_get (media_post stEx 1 bodyEx false none none).store 1 "" false
        none).resp.items :=
  ⟨(create_then_list_roundtrip stEx 1 bodyEx "Arrival" "movie" "plan"
      rfl rfl rfl (by decide)).1,
   (create_then_list_roundtrip stEx 1 bodyEx "Arrival" "movie" "plan"
      rfl rfl rfl (by decide)).2.2⟩

end MyMediaTrek
